import Mathlib

/-
Verification of the multi-tenant notes API (src/index.js) against its
specification. The database is embedded as lists of rows; each Express
handler becomes a pure function from the database and the request data to
an HTTP response (and, for mutating handlers, the new database). Prisma
query primitives are embedded as list operations: findUnique / findFirst
become List.find?, count becomes filtering plus length, update and delete
rewrite the row with the matching primary key. Timestamps, the token
signature itself and bcrypt internals are external collaborators and are
abstracted: token verification is a parameter returning the decoded
claims, and password comparison is a parameter returning a Bool.
-/

namespace SaasNotes

/-- Subscription plan of a tenant (Prisma enum Plan). -/
inductive Plan where
  | FREE
  | PRO
deriving DecidableEq, Repr

/-- Role of a user (Prisma enum Role). -/
inductive Role where
  | ADMIN
  | MEMBER
deriving DecidableEq, Repr

/-- A Tenant row (timestamps omitted; no claim mentions them). -/
structure Tenant where
  id : String
  name : String
  slug : String
  plan : Plan
deriving DecidableEq, Repr

/-- A User row; password holds the bcrypt hash. -/
structure User where
  id : String
  email : String
  password : String
  role : Role
  tenantId : String
deriving DecidableEq, Repr

/-- A Note row; ownerId is nullable in the schema. -/
structure Note where
  id : String
  title : String
  content : String
  tenantId : String
  ownerId : Option String
deriving DecidableEq, Repr

/-- The stored state: the three tables. -/
structure DB where
  tenants : List Tenant
  users : List User
  notes : List Note
deriving DecidableEq, Repr

/-- The JWT payload: jwt.sign of the object with userId, tenantId, role. -/
structure Claims where
  userId : String
  tenantId : String
  role : Role
deriving DecidableEq, Repr

/-- The sanitized user view produced by toSafeUser. -/
structure SafeUser where
  id : String
  email : String
  role : Role
  tenantId : String
deriving DecidableEq, Repr

/-- toSafeUser from src/index.js line 16: picks id, email, role, tenantId. -/
def toSafeUser (u : User) : SafeUser :=
  { id := u.id, email := u.email, role := u.role, tenantId := u.tenantId }

/-- A JSON request body; a field set to none was absent (undefined). -/
structure ReqBody where
  title : Option String
  content : Option String
  tenantId : Option String
  ownerId : Option String
deriving DecidableEq, Repr

/-- Response bodies the handlers can produce. -/
inductive Body where
  | errorMsg (msg : String)
  | loginOk (tokenClaims : Claims) (user : SafeUser)
  | noteBody (note : Note)
  | tenantMsg (message : String) (tenant : Tenant)
  | empty
deriving DecidableEq, Repr

/-- An HTTP response: status code and JSON body. -/
structure Rsp where
  status : Nat
  body : Body
deriving DecidableEq, Repr

/-- JS falsiness of an optional string field: absent (undefined) or empty. -/
def isBlank : Option String → Bool
  | none => true
  | some s => s == ""

/-- POST /login (src/index.js lines 24 to 44). compare abstracts
bcrypt.compare (supplied password against the stored hash). -/
def login (compare : String → String → Bool) (db : DB)
    (email password : Option String) : Rsp :=
  if isBlank email || isBlank password then
    ⟨400, Body.errorMsg "Email and password are required"⟩
  else
    match db.users.find? (fun u => u.email == email.getD "") with
    | none => ⟨401, Body.errorMsg "Invalid credentials"⟩
    | some u =>
      if compare (password.getD "") u.password then
        ⟨200, Body.loginOk ⟨u.id, u.tenantId, u.role⟩ (toSafeUser u)⟩
      else
        ⟨401, Body.errorMsg "Invalid credentials"⟩

/-- The JS string split on a single space, over the character list: every
occurrence of the space character separates two segments, with no
collapsing of adjacent separators, and the empty input yields one empty
segment, exactly as the split method of JS on a one-space separator. -/
def splitSp : List Char → List (List Char)
  | [] => [[]]
  | c :: rest =>
    if c = ' ' then [] :: splitSp rest
    else
      match splitSp rest with
      | [] => [[c]]
      | seg :: segs => (c :: seg) :: segs

/-- The JS split of a string on a single space. -/
def splitSpace (s : String) : List String :=
  (splitSp s.data).map (fun cs => String.mk cs)

/-- Token extraction inside authenticate (src/index.js lines 48 to 50):
the header is split on a single space, the element at index 1 is taken as
the token (undefined when there is no space), and a falsy token, that is
a missing or empty second segment, is rejected. -/
def extractToken (auth : String) : Option String :=
  match (splitSpace auth)[1]? with
  | none => none
  | some t => if t == "" then none else some t

/-- The authenticate middleware (src/index.js lines 47 to 58). verify
abstracts jwt.verify: some claims on a validly signed unexpired token,
none otherwise. The header argument is none when no Authorization header
was sent (the code then falls back to the empty string). -/
def authenticate (verify : String → Option Claims)
    (header : Option String) : Except Rsp Claims :=
  match extractToken (header.getD "") with
  | none => Except.error ⟨401, Body.errorMsg "Missing token"⟩
  | some t =>
    match verify t with
    | some payload => Except.ok payload
    | none => Except.error ⟨401, Body.errorMsg "Invalid token"⟩

/-- The requireRole middleware (src/index.js lines 60 to 66). In the
pipeline model the identity is always attached when this runs, so the
401 branch for a missing req.user cannot fire. -/
def requireRole (required : Role) (payload : Claims) : Except Rsp Unit :=
  if payload.role ≠ required then Except.error ⟨403, Body.errorMsg "Forbidden"⟩
  else Except.ok ()

/-- POST /notes (src/index.js lines 69 to 95). Destructures only title and
content from the body; newId abstracts the generated primary key. -/
def createNote (db : DB) (payload : Claims) (body : ReqBody)
    (newId : String) : Rsp × DB :=
  if isBlank body.title || isBlank body.content then
    (⟨400, Body.errorMsg "Title and content are required"⟩, db)
  else
    match db.tenants.find? (fun t => t.id == payload.tenantId) with
    | none => (⟨404, Body.errorMsg "Tenant not found"⟩, db)
    | some tenant =>
      if tenant.plan = Plan.FREE ∧
          3 ≤ (db.notes.filter (fun n => n.tenantId == tenant.id)).length then
        (⟨402, Body.errorMsg "FREE plan limit reached. Upgrade to PRO."⟩, db)
      else
        let note : Note :=
          ⟨newId, body.title.getD "", body.content.getD "",
            payload.tenantId, some payload.userId⟩
        (⟨201, Body.noteBody note⟩, { db with notes := db.notes ++ [note] })

/-- GET /notes/:id (src/index.js lines 107 to 116): findFirst on the
double predicate id AND tenantId. Read only, so no new DB is returned. -/
def getNote (db : DB) (payload : Claims) (noteId : String) : Rsp :=
  match db.notes.find? (fun n => n.id == noteId && n.tenantId == payload.tenantId) with
  | none => ⟨404, Body.errorMsg "Not found"⟩
  | some note => ⟨200, Body.noteBody note⟩

/-- PUT /notes/:id (src/index.js lines 118 to 129). The ORM update skips a
field whose value is undefined, so an absent body field leaves the stored
field unchanged; a present field overwrites unconditionally. -/
def updateNote (db : DB) (payload : Claims) (noteId : String)
    (body : ReqBody) : Rsp × DB :=
  match db.notes.find? (fun n => n.id == noteId && n.tenantId == payload.tenantId) with
  | none => (⟨404, Body.errorMsg "Not found"⟩, db)
  | some existing =>
    let updated : Note :=
      { existing with
        title := body.title.getD existing.title
        content := body.content.getD existing.content }
    (⟨200, Body.noteBody updated⟩,
      { db with notes :=
          db.notes.map (fun n => if n.id == existing.id then updated else n) })

/-- DELETE /notes/:id (src/index.js lines 131 to 141). The delete by
primary key removes the resolved row (ids are unique in the schema). -/
def deleteNote (db : DB) (payload : Claims) (noteId : String) : Rsp × DB :=
  match db.notes.find? (fun n => n.id == noteId && n.tenantId == payload.tenantId) with
  | none => (⟨404, Body.errorMsg "Not found"⟩, db)
  | some existing =>
    (⟨204, Body.empty⟩,
      { db with notes := db.notes.filter (fun n => n.id != existing.id) })

/-- POST /tenants/:slug/upgrade handler body (src/index.js lines 144 to
157), after the auth and role gates. -/
def upgradeTenant (db : DB) (payload : Claims) (slug : String) : Rsp × DB :=
  match db.tenants.find? (fun t => t.slug == slug) with
  | none => (⟨404, Body.errorMsg "Tenant not found"⟩, db)
  | some tenant =>
    if tenant.id ≠ payload.tenantId then
      (⟨403, Body.errorMsg "Cannot upgrade another tenant"⟩, db)
    else if tenant.plan = Plan.PRO then
      (⟨200, Body.tenantMsg "Already PRO" tenant⟩, db)
    else
      let updated : Tenant := { tenant with plan := Plan.PRO }
      (⟨200, Body.tenantMsg "Upgraded to PRO" updated⟩,
        { db with tenants :=
            db.tenants.map (fun t => if t.id == tenant.id then updated else t) })

/-- The full upgrade route: authenticate, then requireRole ADMIN, then the
handler, as composed on src/index.js line 144. -/
def upgradeRoute (verify : String → Option Claims) (db : DB)
    (header : Option String) (slug : String) : Rsp × DB :=
  match authenticate verify header with
  | Except.error r => (r, db)
  | Except.ok payload =>
    match requireRole Role.ADMIN payload with
    | Except.error r => (r, db)
    | Except.ok _ => upgradeTenant db payload slug

/-
Concrete fixtures shared by the witnesses below.
-/

/-- A concrete verifier accepting exactly the token abc123. -/
def verifyW : String → Option Claims :=
  fun s => if s == "abc123" then some ⟨"u1", "T1", Role.MEMBER⟩ else none

/-- A concrete stand-in for bcrypt.compare. -/
def compareW : String → String → Bool := fun p h => h == "hash:" ++ p

/-- A concrete user. -/
def userW : User := ⟨"u1", "a@x.com", "hash:pw1", Role.ADMIN, "T1"⟩

/-- A concrete database with one user. -/
def dbW0 : DB := ⟨[], [userW], []⟩

/-- A concrete verifier accepting exactly the token admintok, decoding to
an ADMIN of tenant T1. -/
def verifyAdminW : String → Option Claims :=
  fun s => if s == "admintok" then some ⟨"u1", "T1", Role.ADMIN⟩ else none

/-- A concrete tenant on the FREE plan. -/
def tenantW1 : Tenant := ⟨"T1", "Acme", "acme", Plan.FREE⟩

/-- A concrete tenant on the PRO plan. -/
def tenantW2 : Tenant := ⟨"T2", "Globex", "globex", Plan.PRO⟩

/-- A note of tenant T1. -/
def noteW1 : Note := ⟨"n1", "t1", "c1", "T1", some "u1"⟩

/-- A note of tenant T2. -/
def noteW2 : Note := ⟨"n2", "t2", "c2", "T2", some "u2"⟩

/-- A concrete database with two tenants and one note in each. -/
def dbW : DB := ⟨[tenantW1, tenantW2], [userW], [noteW1, noteW2]⟩

/-- A member of tenant T1. -/
def cMember : Claims := ⟨"u1", "T1", Role.MEMBER⟩

/-- An admin of tenant T1. -/
def cAdminW : Claims := ⟨"u1", "T1", Role.ADMIN⟩

/-- A member of tenant T2. -/
def cMember2 : Claims := ⟨"u2", "T2", Role.MEMBER⟩

/-- A well-formed note creation body. -/
def bodyW : ReqBody := ⟨some "Title", some "Content", none, none⟩

/-- A database where both tenants already hold three notes each: tenant
T1 is FREE and at its quota, tenant T2 is PRO. -/
def dbQuota : DB :=
  ⟨[tenantW1, tenantW2], [userW],
    [⟨"n1", "a", "b", "T1", some "u1"⟩, ⟨"n2", "a", "b", "T1", some "u1"⟩,
     ⟨"n3", "a", "b", "T1", some "u1"⟩, ⟨"m1", "a", "b", "T2", some "u2"⟩,
     ⟨"m2", "a", "b", "T2", some "u2"⟩, ⟨"m3", "a", "b", "T2", some "u2"⟩]⟩

/-- The quota database after the admin of T1 upgraded the acme tenant. -/
def dbQuotaUp : DB := (upgradeTenant dbQuota cAdminW "acme").2

/-- The tenant T1 after the upgrade. -/
def tenantW1Pro : Tenant := ⟨"T1", "Acme", "acme", Plan.PRO⟩

/-- C10: the authenticate middleware splits the Authorization header on
single spaces and verifies only the second segment: any header whose
second space-separated segment is a validly verified token is accepted,
with no check of the scheme word; a header with no space, or with an
empty second segment, yields 401 Missing token. -/
theorem authenticate_second_segment (verify : String → Option Claims) :
    (∀ (header t : String) (payload : Claims),
      (splitSpace header)[1]? = some t → t ≠ "" →
      verify t = some payload →
      authenticate verify (some header) = Except.ok payload) ∧
    (∀ header : String, (splitSpace header)[1]? = none →
      authenticate verify (some header) =
        Except.error ⟨401, Body.errorMsg "Missing token"⟩) ∧
    (∀ header : String, (splitSpace header)[1]? = some "" →
      authenticate verify (some header) =
        Except.error ⟨401, Body.errorMsg "Missing token"⟩) := by
  refine ⟨?_, ?_, ?_⟩
  · intro header t payload hseg ht hv
    simp [authenticate, extractToken, hseg, ht, hv]
  · intro header hseg
    simp [authenticate, extractToken, hseg]
  · intro header hseg
    simp [authenticate, extractToken, hseg]

/-- Witness for C10: a scheme word other than Bearer is accepted when the
second segment verifies; a header with no space is rejected 401. -/
theorem authenticate_second_segment_witness :
    authenticate verifyW (some "Token abc123") =
      Except.ok ⟨"u1", "T1", Role.MEMBER⟩ ∧
    authenticate verifyW (some "abc123") =
      Except.error ⟨401, Body.errorMsg "Missing token"⟩ :=
  ⟨(authenticate_second_segment verifyW).1 "Token abc123" "abc123"
      ⟨"u1", "T1", Role.MEMBER⟩ (by decide) (by decide) (by decide),
   (authenticate_second_segment verifyW).2.1 "abc123" (by decide)⟩

/-- C5: login is non-distinguishing between an unknown email and a wrong
password: both failure causes produce the same 401 response with the
identical message Invalid credentials, so they cannot be told apart. -/
theorem login_non_distinguishing
    (compare : String → String → Bool) (db : DB) (email password : String)
    (hEmail : email ≠ "") (hPw : password ≠ "") :
    (db.users.find? (fun u => u.email == email) = none →
      login compare db (some email) (some password) =
        ⟨401, Body.errorMsg "Invalid credentials"⟩) ∧
    (∀ u : User, db.users.find? (fun u => u.email == email) = some u →
      compare password u.password = false →
      login compare db (some email) (some password) =
        ⟨401, Body.errorMsg "Invalid credentials"⟩) := by
  constructor
  · intro hfind
    simp [login, isBlank, hEmail, hPw, hfind]
  · intro u hfind hcmp
    simp [login, isBlank, hEmail, hPw, hfind, hcmp]

/-- Witness for C5: a non-existent email and a wrong password for an
existing user produce the identical 401 response. -/
theorem login_non_distinguishing_witness :
    login compareW dbW0 (some "b@x.com") (some "pw1") =
        ⟨401, Body.errorMsg "Invalid credentials"⟩ ∧
    login compareW dbW0 (some "a@x.com") (some "wrong") =
        ⟨401, Body.errorMsg "Invalid credentials"⟩ :=
  ⟨(login_non_distinguishing compareW dbW0 "b@x.com" "pw1"
      (by decide) (by decide)).1 (by decide),
   (login_non_distinguishing compareW dbW0 "a@x.com" "wrong"
      (by decide) (by decide)).2 userW (by decide) (by decide)⟩

/-- C6: a successful login returns the signed claims userId, tenantId and
role taken from the stored user, together with the sanitized user view of
exactly id, email, role and tenantId. The right-hand side of the equation
is built from those four fields only, so the stored password hash never
appears in the response body. -/
theorem login_success_sanitized
    (compare : String → String → Bool) (db : DB) (email password : String)
    (u : User)
    (hEmail : email ≠ "") (hPw : password ≠ "")
    (hFind : db.users.find? (fun v => v.email == email) = some u)
    (hCmp : compare password u.password = true) :
    login compare db (some email) (some password) =
      ⟨200, Body.loginOk ⟨u.id, u.tenantId, u.role⟩
        ⟨u.id, u.email, u.role, u.tenantId⟩⟩ := by
  simp [login, isBlank, hEmail, hPw, hFind, hCmp, toSafeUser]

/-- Witness for C6: logging in as the stored user with the right password
yields the token claims and sanitized view of that user. -/
theorem login_success_sanitized_witness :
    login compareW dbW0 (some "a@x.com") (some "pw1") =
      ⟨200, Body.loginOk ⟨"u1", "T1", Role.ADMIN⟩
        ⟨"u1", "a@x.com", Role.ADMIN, "T1"⟩⟩ :=
  login_success_sanitized compareW dbW0 "a@x.com" "pw1" userW
    (by decide) (by decide) (by decide) (by decide)

/-- C1: tenant isolation of GET /notes/:id. Under the schema invariant
that note ids are unique, a stored note whose id matches the request but
whose tenantId differs from the token claim makes the lookup return 404
Not found, never that note; and a 200 response carries only a stored note
whose id matches and whose tenantId equals the caller tenant claim. -/
theorem getNote_tenant_isolation
    (db : DB) (payload : Claims) (noteId : String)
    (hIds : (db.notes.map Note.id).Nodup) :
    (∀ other : Note, other ∈ db.notes → other.id = noteId →
        other.tenantId ≠ payload.tenantId →
        getNote db payload noteId = ⟨404, Body.errorMsg "Not found"⟩) ∧
    (∀ n : Note, getNote db payload noteId = ⟨200, Body.noteBody n⟩ →
        n ∈ db.notes ∧ n.id = noteId ∧ n.tenantId = payload.tenantId) := by
  constructor
  · intro other hmem hid htid
    cases hfind : db.notes.find?
        (fun n => n.id == noteId && n.tenantId == payload.tenantId) with
    | none => simp [getNote, hfind]
    | some n =>
      exfalso
      have hn := List.find?_some hfind
      have hnmem := List.mem_of_find?_eq_some hfind
      simp only [Bool.and_eq_true, beq_iff_eq] at hn
      have heq : n = other :=
        List.inj_on_of_nodup_map hIds hnmem hmem (hn.1.trans hid.symm)
      exact htid (heq ▸ hn.2)
  · intro n h200
    cases hfind : db.notes.find?
        (fun n => n.id == noteId && n.tenantId == payload.tenantId) with
    | none => simp [getNote, hfind] at h200
    | some m =>
      have hm := List.find?_some hfind
      have hmem := List.mem_of_find?_eq_some hfind
      simp only [getNote, hfind, Rsp.mk.injEq, Body.noteBody.injEq, true_and] at h200
      subst h200
      simp only [Bool.and_eq_true, beq_iff_eq] at hm
      exact ⟨hmem, hm.1, hm.2⟩

/-- Witness for C1: a member of tenant T1 fetching the note n2, which is
stored with tenantId T2, receives 404 Not found. -/
theorem getNote_tenant_isolation_witness :
    getNote dbW cMember "n2" = ⟨404, Body.errorMsg "Not found"⟩ :=
  (getNote_tenant_isolation dbW cMember "n2" (by decide)).1
    noteW2 (by decide) (by decide) (by decide)

/-- C2: plan limit admission on POST /notes. With a non-blank title and
content and the caller tenant resolved: when the plan is FREE and that
tenant already holds at least three notes, the request fails 402 and the
database is unchanged; when the plan is PRO the count check is not
applied and the creation succeeds 201 with the note appended, whatever
the existing count. -/
theorem createNote_plan_limit
    (db : DB) (payload : Claims) (body : ReqBody) (newId : String)
    (tenant : Tenant)
    (hT : db.tenants.find? (fun t => t.id == payload.tenantId) = some tenant)
    (hTitle : isBlank body.title = false)
    (hContent : isBlank body.content = false) :
    (tenant.plan = Plan.FREE →
      3 ≤ (db.notes.filter (fun n => n.tenantId == tenant.id)).length →
      createNote db payload body newId =
        (⟨402, Body.errorMsg "FREE plan limit reached. Upgrade to PRO."⟩, db)) ∧
    (tenant.plan = Plan.PRO →
      createNote db payload body newId =
        (⟨201, Body.noteBody ⟨newId, body.title.getD "", body.content.getD "",
            payload.tenantId, some payload.userId⟩⟩,
          { db with notes := db.notes ++
            [⟨newId, body.title.getD "", body.content.getD "",
              payload.tenantId, some payload.userId⟩] })) := by
  constructor
  · intro hplan hcount
    simp [createNote, hTitle, hContent, hT, hplan, hcount]
  · intro hplan
    simp [createNote, hTitle, hContent, hT, hplan]

/-- Witness for C2: on the quota database, a fourth note for the FREE
tenant T1 is refused 402 with the database unchanged, while after the
upgrade of T1 to PRO the same creation returns 201. -/
theorem createNote_plan_limit_witness :
    createNote dbQuota cMember bodyW "n9" =
      (⟨402, Body.errorMsg "FREE plan limit reached. Upgrade to PRO."⟩,
        dbQuota) ∧
    (createNote dbQuotaUp cMember bodyW "n9").1.status = 201 :=
  ⟨(createNote_plan_limit dbQuota cMember bodyW "n9" tenantW1
      (by decide) (by decide) (by decide)).1 (by decide) (by decide),
   by rw [(createNote_plan_limit dbQuotaUp cMember bodyW "n9" tenantW1Pro
      (by decide) (by decide) (by decide)).2 (by decide)]⟩

/-- C7: every successful creation stores the note with tenantId taken
from the token tenant claim and ownerId from the token user claim, the
response is 201 with the created record, and the tenantId and ownerId
fields of the request body are ignored: replacing them by any values
leaves the outcome unchanged. -/
theorem createNote_binds_identity
    (db : DB) (payload : Claims) (body : ReqBody) (newId : String)
    (hOk : (createNote db payload body newId).1.status = 201) :
    ((createNote db payload body newId).1 =
      ⟨201, Body.noteBody ⟨newId, body.title.getD "", body.content.getD "",
        payload.tenantId, some payload.userId⟩⟩) ∧
    ((createNote db payload body newId).2.notes = db.notes ++
      [⟨newId, body.title.getD "", body.content.getD "",
        payload.tenantId, some payload.userId⟩]) ∧
    (∀ tid oid : Option String,
      createNote db payload ⟨body.title, body.content, tid, oid⟩ newId =
        createNote db payload body newId) := by
  by_cases hB : (isBlank body.title || isBlank body.content) = true
  · simp [createNote, hB] at hOk
  · cases hT : db.tenants.find? (fun t => t.id == payload.tenantId) with
    | none => simp [createNote, hB, hT] at hOk
    | some tenant =>
      by_cases hC : tenant.plan = Plan.FREE ∧
          3 ≤ (db.notes.filter (fun n => n.tenantId == tenant.id)).length
      · simp [createNote, hB, hT, hC] at hOk
      · refine ⟨?_, ?_, fun tid oid => rfl⟩ <;> simp [createNote, hB, hT, hC]

/-- Witness for C7: a creation whose body smuggles a foreign tenantId and
ownerId still stores the note under the caller tenant T2 and caller user
u2 and behaves exactly as with no such fields. -/
theorem createNote_binds_identity_witness :
    ((createNote dbW cMember2 ⟨some "Title", some "Content", some "T1",
        some "u1"⟩ "n9").1 =
      ⟨201, Body.noteBody ⟨"n9", "Title", "Content", "T2", some "u2"⟩⟩) ∧
    (createNote dbW cMember2 ⟨some "Title", some "Content", some "T1",
        some "u1"⟩ "n9" =
      createNote dbW cMember2 bodyW "n9") :=
  ⟨(createNote_binds_identity dbW cMember2 ⟨some "Title", some "Content",
      some "T1", some "u1"⟩ "n9" (by decide)).1,
   (createNote_binds_identity dbW cMember2 bodyW "n9"
      (by decide)).2.2 (some "T1") (some "u1")⟩

/-- C8: PUT /notes/:id resolves the note by id and tenant and, when both
body fields are supplied, overwrites title and content unconditionally,
with no condition on ownerId, so any authenticated member of the tenant
edits any note in it; when no note matches in the caller tenant the
result is 404 with the database unchanged. -/
theorem updateNote_overwrites
    (db : DB) (payload : Claims) (noteId title content : String)
    (tid oid : Option String) :
    (db.notes.find?
        (fun n => n.id == noteId && n.tenantId == payload.tenantId) = none →
      updateNote db payload noteId ⟨some title, some content, tid, oid⟩ =
        (⟨404, Body.errorMsg "Not found"⟩, db)) ∧
    (∀ existing : Note,
      db.notes.find?
        (fun n => n.id == noteId && n.tenantId == payload.tenantId) =
          some existing →
      updateNote db payload noteId ⟨some title, some content, tid, oid⟩ =
        (⟨200, Body.noteBody
            { existing with title := title, content := content }⟩,
          { db with notes := db.notes.map (fun n =>
              if n.id == existing.id
              then { existing with title := title, content := content }
              else n) })) := by
  constructor
  · intro hfind
    simp [updateNote, hfind]
  · intro existing hfind
    simp [updateNote, hfind]

/-- Witness for C8: a member of tenant T1 who does not own note n1, which
is owned by u1, edits it anyway, and editing the foreign note n2 gives
404 with the database unchanged. -/
theorem updateNote_overwrites_witness :
    (updateNote dbW ⟨"u9", "T1", Role.MEMBER⟩ "n1"
        ⟨some "New", some "Body", none, none⟩ =
      (⟨200, Body.noteBody ⟨"n1", "New", "Body", "T1", some "u1"⟩⟩,
        ⟨[tenantW1, tenantW2], [userW],
          [⟨"n1", "New", "Body", "T1", some "u1"⟩, noteW2]⟩)) ∧
    (updateNote dbW ⟨"u9", "T1", Role.MEMBER⟩ "n2"
        ⟨some "New", some "Body", none, none⟩ =
      (⟨404, Body.errorMsg "Not found"⟩, dbW)) := by
  constructor
  · have h := (updateNote_overwrites dbW ⟨"u9", "T1", Role.MEMBER⟩ "n1"
      "New" "Body" none none).2 noteW1 (by decide)
    rw [h]
    decide
  · exact (updateNote_overwrites dbW ⟨"u9", "T1", Role.MEMBER⟩ "n2"
      "New" "Body" none none).1 (by decide)

/-- POST /notes either succeeds with a 201 status or leaves the stored
state untouched: every early return precedes the single create. -/
theorem createNote_state (db : DB) (payload : Claims) (body : ReqBody)
    (newId : String) :
    (createNote db payload body newId).1.status = 201 ∨
    (createNote db payload body newId).2 = db := by
  unfold createNote
  split
  · exact Or.inr rfl
  · split
    · exact Or.inr rfl
    · split
      · exact Or.inr rfl
      · exact Or.inl rfl

/-- PUT /notes/:id either succeeds with a 200 status or leaves the stored
state untouched. -/
theorem updateNote_state (db : DB) (payload : Claims) (noteId : String)
    (body : ReqBody) :
    (updateNote db payload noteId body).1.status = 200 ∨
    (updateNote db payload noteId body).2 = db := by
  unfold updateNote
  split
  · exact Or.inr rfl
  · exact Or.inl rfl

/-- DELETE /notes/:id either succeeds with a 204 status or leaves the
stored state untouched. -/
theorem deleteNote_state (db : DB) (payload : Claims) (noteId : String) :
    (deleteNote db payload noteId).1.status = 204 ∨
    (deleteNote db payload noteId).2 = db := by
  unfold deleteNote
  split
  · exact Or.inr rfl
  · exact Or.inl rfl

/-- The upgrade handler either succeeds with a 200 status or leaves the
stored state untouched. -/
theorem upgradeTenant_state (db : DB) (payload : Claims) (slug : String) :
    (upgradeTenant db payload slug).1.status = 200 ∨
    (upgradeTenant db payload slug).2 = db := by
  unfold upgradeTenant
  split
  · exact Or.inr rfl
  · split
    · exact Or.inr rfl
    · split
      · exact Or.inr rfl
      · exact Or.inl rfl

/-- C9: every error response, status 400 and above, from a mutating
handler leaves the stored state unchanged: all validation, tenant
resolution and quota checks precede the single mutation of the handler,
so no partial success is possible. The read handlers return no new state
by construction. -/
theorem errors_leave_state_unchanged
    (verify : String → Option Claims) (header : Option String)
    (db : DB) (payload : Claims) (body : ReqBody)
    (newId noteId slug : String) :
    (400 ≤ (createNote db payload body newId).1.status →
      (createNote db payload body newId).2 = db) ∧
    (400 ≤ (updateNote db payload noteId body).1.status →
      (updateNote db payload noteId body).2 = db) ∧
    (400 ≤ (deleteNote db payload noteId).1.status →
      (deleteNote db payload noteId).2 = db) ∧
    (400 ≤ (upgradeTenant db payload slug).1.status →
      (upgradeTenant db payload slug).2 = db) ∧
    (400 ≤ (upgradeRoute verify db header slug).1.status →
      (upgradeRoute verify db header slug).2 = db) := by
  refine ⟨fun h => ?_, fun h => ?_, fun h => ?_, fun h => ?_, fun h => ?_⟩
  · rcases createNote_state db payload body newId with hs | hdb
    · omega
    · exact hdb
  · rcases updateNote_state db payload noteId body with hs | hdb
    · omega
    · exact hdb
  · rcases deleteNote_state db payload noteId with hs | hdb
    · omega
    · exact hdb
  · rcases upgradeTenant_state db payload slug with hs | hdb
    · omega
    · exact hdb
  · rcases hA : authenticate verify header with r | p
    · have heq : upgradeRoute verify db header slug = (r, db) := by
        simp [upgradeRoute, hA]
      rw [heq]
    · rcases hR : requireRole Role.ADMIN p with r | u
      · have heq : upgradeRoute verify db header slug = (r, db) := by
          simp [upgradeRoute, hA, hR]
        rw [heq]
      · have heq : upgradeRoute verify db header slug =
            upgradeTenant db p slug := by
          simp [upgradeRoute, hA, hR]
        rw [heq] at h ⊢
        rcases upgradeTenant_state db p slug with hs | hdb
        · omega
        · exact hdb

/-- Witness for C9: a quota refusal, a missing note on update and delete,
and a foreign slug upgrade all leave the concrete databases unchanged. -/
theorem errors_leave_state_unchanged_witness :
    ((createNote dbQuota cMember bodyW "n9").2 = dbQuota) ∧
    ((updateNote dbW cMember "nope" bodyW).2 = dbW) ∧
    ((deleteNote dbW cMember "n2").2 = dbW) ∧
    ((upgradeTenant dbW cAdminW "globex").2 = dbW) ∧
    ((upgradeRoute verifyAdminW dbW none "acme").2 = dbW) :=
  ⟨(errors_leave_state_unchanged verifyAdminW none dbQuota cMember bodyW
      "n9" "x" "y").1 (by decide),
   (errors_leave_state_unchanged verifyAdminW none dbW cMember bodyW
      "z" "nope" "y").2.1 (by decide),
   (errors_leave_state_unchanged verifyAdminW none dbW cMember bodyW
      "z" "n2" "y").2.2.1 (by decide),
   (errors_leave_state_unchanged verifyAdminW none dbW cAdminW bodyW
      "z" "y" "globex").2.2.2.1 (by decide),
   (errors_leave_state_unchanged verifyAdminW none dbW cAdminW bodyW
      "z" "y" "acme").2.2.2.2 (by decide)⟩

/-- C3: scope of POST /tenants/:slug/upgrade. For an authenticated ADMIN
caller: an absent slug gives 404; a tenant resolved by slug whose id
differs from the caller tenant claim gives 403 with the database, hence
the plan, unchanged; and a 200 outcome is possible only when the
resolved tenant id equals the caller tenant claim. -/
theorem upgrade_scope_check
    (verify : String → Option Claims) (db : DB) (header : Option String)
    (slug : String) (payload : Claims)
    (hAuth : authenticate verify header = Except.ok payload)
    (hRole : payload.role = Role.ADMIN) :
    (db.tenants.find? (fun t => t.slug == slug) = none →
      upgradeRoute verify db header slug =
        (⟨404, Body.errorMsg "Tenant not found"⟩, db)) ∧
    (∀ tenant : Tenant,
      db.tenants.find? (fun t => t.slug == slug) = some tenant →
      tenant.id ≠ payload.tenantId →
      upgradeRoute verify db header slug =
        (⟨403, Body.errorMsg "Cannot upgrade another tenant"⟩, db)) ∧
    (∀ tenant : Tenant,
      db.tenants.find? (fun t => t.slug == slug) = some tenant →
      (upgradeRoute verify db header slug).1.status = 200 →
      tenant.id = payload.tenantId) := by
  have hroute : upgradeRoute verify db header slug =
      upgradeTenant db payload slug := by
    simp [upgradeRoute, hAuth, requireRole, hRole]
  refine ⟨?_, ?_, ?_⟩
  · intro hfind
    rw [hroute]
    simp [upgradeTenant, hfind]
  · intro tenant hfind hne
    rw [hroute]
    simp [upgradeTenant, hfind, hne]
  · intro tenant hfind h200
    rw [hroute] at h200
    by_cases hid : tenant.id = payload.tenantId
    · exact hid
    · exfalso
      simp [upgradeTenant, hfind, hid] at h200

/-- Witness for C3: the admin of tenant T1 calling the upgrade with the
slug of tenant T2 receives 403 and the database is unchanged. -/
theorem upgrade_scope_check_witness :
    upgradeRoute verifyAdminW dbW (some "Bearer admintok") "globex" =
      (⟨403, Body.errorMsg "Cannot upgrade another tenant"⟩, dbW) :=
  (upgrade_scope_check verifyAdminW dbW (some "Bearer admintok") "globex"
      ⟨"u1", "T1", Role.ADMIN⟩ (by rfl) rfl).2.1 tenantW2
    (by decide) (by decide)

/-- After the upgrade map rewrites the rows holding the resolved id, the
slug lookup resolves to the upgraded tenant: the map changes no slug, so
the first slug match is at the same position and now carries plan PRO. -/
theorem find?_slug_map_upgrade (l : List Tenant) (tenant : Tenant)
    (slug : String)
    (h : l.find? (fun t => t.slug == slug) = some tenant) :
    (l.map (fun t => if t.id == tenant.id
        then { tenant with plan := Plan.PRO } else t)).find?
      (fun t => t.slug == slug) = some { tenant with plan := Plan.PRO } := by
  have hts : (tenant.slug == slug) = true := by
    have h2 := List.find?_some h
    simpa using h2
  induction l with
  | nil => simp at h
  | cons hd tl ih =>
    simp only [List.map_cons]
    by_cases hp : (hd.slug == slug) = true
    · rw [@List.find?_cons_of_pos _ (fun t => t.slug == slug) hd tl hp] at h
      have h1 : hd = tenant := Option.some.inj h
      subst h1
      rw [if_pos (by simp)]
      exact List.find?_cons_of_pos _ (by simpa using hp)
    · rw [@List.find?_cons_of_neg _ (fun t => t.slug == slug) hd tl hp] at h
      by_cases hid : (hd.id == tenant.id) = true
      · rw [if_pos hid]
        exact List.find?_cons_of_pos _ (by simpa using hts)
      · rw [if_neg hid]
        rw [@List.find?_cons_of_neg _ (fun t => t.slug == slug) hd _ hp]
        exact ih h

/-- C4: the upgrade of the own tenant of an admin is idempotent: from a
FREE plan the first call returns 200 with the upgraded tenant and flips
the stored plan to PRO; the call after any first call returns 200, with
the already PRO message when the plan was first flipped, and changes
nothing, so two consecutive upgrades end in the state one produces. -/
theorem upgrade_idempotent
    (db : DB) (payload : Claims) (slug : String) (tenant : Tenant)
    (hFind : db.tenants.find? (fun t => t.slug == slug) = some tenant)
    (hOwn : tenant.id = payload.tenantId) :
    (tenant.plan = Plan.FREE →
      upgradeTenant db payload slug =
        (⟨200, Body.tenantMsg "Upgraded to PRO"
            { tenant with plan := Plan.PRO }⟩,
          { db with tenants := db.tenants.map (fun t =>
              if t.id == tenant.id
              then { tenant with plan := Plan.PRO } else t) })) ∧
    ((upgradeTenant (upgradeTenant db payload slug).2 payload slug).1.status
        = 200) ∧
    ((upgradeTenant (upgradeTenant db payload slug).2 payload slug).2 =
      (upgradeTenant db payload slug).2) := by
  cases hplan : tenant.plan with
  | FREE =>
    have hfirst : upgradeTenant db payload slug =
        (⟨200, Body.tenantMsg "Upgraded to PRO"
            { tenant with plan := Plan.PRO }⟩,
          { db with tenants := db.tenants.map (fun t =>
              if t.id == tenant.id
              then { tenant with plan := Plan.PRO } else t) }) := by
      simp [upgradeTenant, hFind, hOwn, hplan]
    have hsecondFind := find?_slug_map_upgrade db.tenants tenant slug hFind
    have hsecond :
        upgradeTenant (upgradeTenant db payload slug).2 payload slug =
          (⟨200, Body.tenantMsg "Already PRO" { tenant with plan := Plan.PRO }⟩,
            (upgradeTenant db payload slug).2) := by
      rw [hfirst]
      simp only [upgradeTenant]
      rw [hsecondFind]
      simp [hOwn]
    exact ⟨fun _ => hfirst, by rw [hsecond], by rw [hsecond]⟩
  | PRO =>
    have hfirst : upgradeTenant db payload slug =
        (⟨200, Body.tenantMsg "Already PRO" tenant⟩, db) := by
      simp [upgradeTenant, hFind, hOwn, hplan]
    refine ⟨fun hF => ?_, ?_, ?_⟩
    · exact absurd hF (by decide)
    · simp [hfirst]
    · simp [hfirst]

/-- Witness for C4: on the concrete database the admin of the FREE tenant
acme upgrades it twice; the second call still reports 200 and the state
after two calls equals the state after one. -/
theorem upgrade_idempotent_witness :
    ((upgradeTenant (upgradeTenant dbW cAdminW "acme").2 cAdminW
        "acme").1.status = 200) ∧
    ((upgradeTenant (upgradeTenant dbW cAdminW "acme").2 cAdminW "acme").2 =
      (upgradeTenant dbW cAdminW "acme").2) :=
  ⟨(upgrade_idempotent dbW cAdminW "acme" tenantW1 (by decide) rfl).2.1,
   (upgrade_idempotent dbW cAdminW "acme" tenantW1 (by decide) rfl).2.2⟩

end SaasNotes
